import Mathlib

/-!
Shallow embedding of `src/main.cpp` (a GLFW/OpenGL spinning-cube viewer):
the camera state (`angleX`, `angleY`, window-should-close flag), the GLFW key
callback, the per-frame render loop, and the stream of fixed-function GL
commands each frame issues.  Angle arithmetic uses `ℚ`; every constant of the
source (5.0, 0.5, 0.1, 0.15, ±3.0, ±0.5) is exactly representable.
-/

namespace UntoldCrime

/-- The GLFW key codes the program inspects (`GLFW_KEY_ESCAPE`,
`GLFW_KEY_LEFT`, `GLFW_KEY_RIGHT`, `GLFW_KEY_UP`, `GLFW_KEY_DOWN`);
`other` stands for every other key code. -/
inductive Key
  | escape
  | left
  | right
  | up
  | down
  | other
deriving DecidableEq, Repr

/-- The GLFW key actions the program inspects: `GLFW_PRESS`, `GLFW_REPEAT`
(constructor `rep`), `GLFW_RELEASE`. -/
inductive KeyAction
  | press
  | rep
  | release
deriving DecidableEq, Repr

/-- The mutable application state of `main.cpp`: the two global camera angles
`angleX` (pitch, degrees) and `angleY` (yaw, degrees), plus the GLFW
window-should-close flag (set by `glfwSetWindowShouldClose`, read by
`glfwWindowShouldClose`). -/
structure AppState where
  angleX : ℚ
  angleY : ℚ
  shouldClose : Bool
deriving DecidableEq, Repr

/-- Program start: both angles zero-initialised, window not closing. -/
def initState : AppState := ⟨0, 0, false⟩

/-- Embedding of `key_callback` from `main.cpp`: Escape+press requests window close;
arrow keys with press-or-repeat add ±5.0 to `angleY` (LEFT −, RIGHT +) or
`angleX` (UP −, DOWN +).  Each `if` of the source is one step of the chain. -/
def key_callback (key : Key) (action : KeyAction) (s : AppState) : AppState :=
  let s1 := if key = Key.escape ∧ action = KeyAction.press then
    { s with shouldClose := true } else s
  let s2 := if key = Key.left ∧ (action = KeyAction.press ∨ action = KeyAction.rep) then
    { s1 with angleY := s1.angleY - 5 } else s1
  let s3 := if key = Key.right ∧ (action = KeyAction.press ∨ action = KeyAction.rep) then
    { s2 with angleY := s2.angleY + 5 } else s2
  let s4 := if key = Key.up ∧ (action = KeyAction.press ∨ action = KeyAction.rep) then
    { s3 with angleX := s3.angleX - 5 } else s3
  let s5 := if key = Key.down ∧ (action = KeyAction.press ∨ action = KeyAction.rep) then
    { s4 with angleX := s4.angleX + 5 } else s4
  s5

/-- An event delivered by `glfwPollEvents`: either a key event (dispatched to
`key_callback`) or the user clicking the window close control (which sets the
window-should-close flag in the backend). -/
inductive Event
  | key (k : Key) (a : KeyAction)
  | closeRequest
deriving DecidableEq, Repr

/-- Dispatch of one polled event. -/
def processEvent (e : Event) (s : AppState) : AppState :=
  match e with
  | Event.key k a => key_callback k a s
  | Event.closeRequest => { s with shouldClose := true }

/-- Event polling (`glfwPollEvents`): deliver the queued events in order. -/
def pollEvents (evs : List Event) (s : AppState) : AppState :=
  evs.foldl (fun t e => processEvent e t) s

/-- The state mutation of one loop body before polling: the render itself
reads the angles without changing them, then `angleY += 0.5f`
(auto-rotation). -/
def frameUpdate (s : AppState) : AppState :=
  { s with angleY := s.angleY + 1/2 }

/-- The `while (!glfwWindowShouldClose(window))` loop: each entry of `polls`
is the batch of events `glfwPollEvents` delivers at the end of one frame.
The loop condition is checked before each frame. -/
def runLoop : List (List Event) → AppState → AppState
  | [], s => s
  | evs :: rest, s =>
    if s.shouldClose then s
    else runLoop rest (pollEvents evs (frameUpdate s))

/-! ## The fixed-function GL command stream -/

/-- The fixed-function GL calls the loop body issues, with their arguments. -/
inductive GLCmd
  | clear
  | clearColor (r g b a : ℚ)
  | loadIdentity
  | translatef (x y z : ℚ)
  | rotatef (angle x y z : ℚ)
  | beginQuads
  | color3f (r g b : ℚ)
  | vertex3f (x y z : ℚ)
  | endPrim
  | swapBuffers
deriving DecidableEq, Repr

/-- Embedding of `drawCube` from `main.cpp`: one `glBegin(GL_QUADS)` block emitting, per
face, one `glColor3f` followed by four `glVertex3f`, in source order
front, back, top, bottom, right, left. -/
def drawCube : List GLCmd :=
  [ GLCmd.beginQuads,
    GLCmd.color3f 1 0 0,
    GLCmd.vertex3f (-1/2) (-1/2) (1/2),
    GLCmd.vertex3f (1/2) (-1/2) (1/2),
    GLCmd.vertex3f (1/2) (1/2) (1/2),
    GLCmd.vertex3f (-1/2) (1/2) (1/2),
    GLCmd.color3f 0 1 0,
    GLCmd.vertex3f (-1/2) (-1/2) (-1/2),
    GLCmd.vertex3f (-1/2) (1/2) (-1/2),
    GLCmd.vertex3f (1/2) (1/2) (-1/2),
    GLCmd.vertex3f (1/2) (-1/2) (-1/2),
    GLCmd.color3f 0 0 1,
    GLCmd.vertex3f (-1/2) (1/2) (-1/2),
    GLCmd.vertex3f (-1/2) (1/2) (1/2),
    GLCmd.vertex3f (1/2) (1/2) (1/2),
    GLCmd.vertex3f (1/2) (1/2) (-1/2),
    GLCmd.color3f 1 1 0,
    GLCmd.vertex3f (-1/2) (-1/2) (-1/2),
    GLCmd.vertex3f (1/2) (-1/2) (-1/2),
    GLCmd.vertex3f (1/2) (-1/2) (1/2),
    GLCmd.vertex3f (-1/2) (-1/2) (1/2),
    GLCmd.color3f 1 0 1,
    GLCmd.vertex3f (1/2) (-1/2) (-1/2),
    GLCmd.vertex3f (1/2) (1/2) (-1/2),
    GLCmd.vertex3f (1/2) (1/2) (1/2),
    GLCmd.vertex3f (1/2) (-1/2) (1/2),
    GLCmd.color3f 0 1 1,
    GLCmd.vertex3f (-1/2) (-1/2) (-1/2),
    GLCmd.vertex3f (-1/2) (-1/2) (1/2),
    GLCmd.vertex3f (-1/2) (1/2) (1/2),
    GLCmd.vertex3f (-1/2) (1/2) (-1/2),
    GLCmd.endPrim ]

/-- The modelview commands of one frame, in source order: `glLoadIdentity`,
`glTranslatef(0,0,-3)`, `glRotatef(angleX,1,0,0)`, `glRotatef(angleY,0,1,0)`. -/
def viewCmds (s : AppState) : List GLCmd :=
  [ GLCmd.loadIdentity,
    GLCmd.translatef 0 0 (-3),
    GLCmd.rotatef s.angleX 1 0 0,
    GLCmd.rotatef s.angleY 0 1 0 ]

/-- The clear color `glClearColor(0.1f, 0.1f, 0.15f, 1.0f)` sets. -/
def fixedClearColor : ℚ × ℚ × ℚ × ℚ := (1/10, 1/10, 3/20, 1)

/-- The GL commands of one loop body, in source order: `glClear`, then
`glClearColor(0.1,0.1,0.15,1)`, then the view setup, then `drawCube`, then
`glfwSwapBuffers`. -/
def frameCmds (s : AppState) : List GLCmd :=
  GLCmd.clear ::
    GLCmd.clearColor (1/10) (1/10) (3/20) 1 ::
      (viewCmds s ++ drawCube ++ [GLCmd.swapBuffers])

/-- The concatenated GL command stream of `n` frames of the loop with no key
input, starting from state `s`. -/
def loopCmds : Nat → AppState → List GLCmd
  | 0, _ => []
  | n + 1, s => frameCmds s ++ loopCmds n (frameUpdate s)

/-! ## Faces of the emitted quad stream -/

/-- One flat-colored face of the emitted quad stream: the color set by
`glColor3f` and the vertices emitted under it. -/
structure Face where
  color : ℚ × ℚ × ℚ
  verts : List (ℚ × ℚ × ℚ)
deriving DecidableEq, Repr

/-- Group a command stream into faces: each `glColor3f` opens a face, each
`glVertex3f` joins the currently open face. -/
def facesAux : List GLCmd → Option Face → List Face
  | [], none => []
  | [], some f => [f]
  | GLCmd.color3f r g b :: rest, none => facesAux rest (some ⟨(r, g, b), []⟩)
  | GLCmd.color3f r g b :: rest, some f => f :: facesAux rest (some ⟨(r, g, b), []⟩)
  | GLCmd.vertex3f x y z :: rest, some f =>
      facesAux rest (some ⟨f.color, f.verts ++ [(x, y, z)]⟩)
  | GLCmd.vertex3f _ _ _ :: rest, none => facesAux rest none
  | _ :: rest, acc => facesAux rest acc

/-- The faces `drawCube` emits. -/
def cubeFaces : List Face := facesAux drawCube none

/-- The vertices `drawCube` emits, in order. -/
def cubeVerts : List (ℚ × ℚ × ℚ) :=
  drawCube.filterMap (fun c =>
    match c with
    | GLCmd.vertex3f x y z => some (x, y, z)
    | _ => none)

/-- The six axis-aligned sides of the cube. -/
inductive Side
  | front
  | back
  | top
  | bottom
  | right
  | left
deriving DecidableEq, Repr

/-- Classify a face by the coordinate all of its vertices share: `front` when
every vertex has z = 1/2, `back` when z = −1/2, `top`/`bottom` for
y = ±1/2, `right`/`left` for x = ±1/2; `none` when the face is not planar
and axis-aligned in this sense. -/
def faceSide (f : Face) : Option Side :=
  if f.verts.all (fun v => v.2.2 = 1/2) then some Side.front
  else if f.verts.all (fun v => v.2.2 = -1/2) then some Side.back
  else if f.verts.all (fun v => v.2.1 = 1/2) then some Side.top
  else if f.verts.all (fun v => v.2.1 = -1/2) then some Side.bottom
  else if f.verts.all (fun v => v.1 = 1/2) then some Side.right
  else if f.verts.all (fun v => v.1 = -1/2) then some Side.left
  else none

/-- A coordinate of a cube vertex: −1/2 or +1/2. -/
def coordOK (q : ℚ) : Bool :=
  decide (q = -1/2 ∨ q = 1/2)

/-- All three coordinates of the vertex lie in {−1/2, 1/2}. -/
def vertOK (v : ℚ × ℚ × ℚ) : Bool :=
  coordOK v.1 && coordOK v.2.1 && coordOK v.2.2

/-! ## Modelview matrix semantics -/

/-- Matrices 4×4 over ℚ, the type of the fixed-function modelview matrix. -/
abbrev Mat4 := Matrix (Fin 4) (Fin 4) ℚ

/-- The matrix of `glTranslatef(x, y, z)`. -/
def translateMat (x y z : ℚ) : Mat4 :=
  Matrix.of ![![1, 0, 0, x], ![0, 1, 0, y], ![0, 0, 1, z], ![0, 0, 0, 1]]

/-- The matrix of `glRotatef(angle, x, y, z)` for a unit axis `(x, y, z)`,
as the GL specification defines it, with the cosine and sine of the angle in
degrees supplied as functions `cosD`, `sinD` (kept abstract: rotation angles
are arbitrary rationals). -/
def rotateMat (cosD sinD : ℚ → ℚ) (angle x y z : ℚ) : Mat4 :=
  let c := cosD angle
  let s := sinD angle
  Matrix.of
    ![![x * x * (1 - c) + c, x * y * (1 - c) - z * s, x * z * (1 - c) + y * s, 0],
      ![y * x * (1 - c) + z * s, y * y * (1 - c) + c, y * z * (1 - c) - x * s, 0],
      ![x * z * (1 - c) - y * s, y * z * (1 - c) + x * s, z * z * (1 - c) + c, 0],
      ![0, 0, 0, 1]]

/-- Effect of one GL command on the current modelview matrix:
`glLoadIdentity` resets it, `glTranslatef` and `glRotatef` multiply the
current matrix on the right by their matrix; every other command leaves it
unchanged. -/
def applyViewCmd (cosD sinD : ℚ → ℚ) (m : Mat4) : GLCmd → Mat4
  | GLCmd.loadIdentity => 1
  | GLCmd.translatef x y z => m * translateMat x y z
  | GLCmd.rotatef a x y z => m * rotateMat cosD sinD a x y z
  | _ => m

/-- The modelview matrix after running a command stream from matrix `m`. -/
def evalView (cosD sinD : ℚ → ℚ) (cmds : List GLCmd) (m : Mat4) : Mat4 :=
  cmds.foldl (applyViewCmd cosD sinD) m

/-! ## Clear-color semantics -/

/-- Modelled from the spec and the GL backend contract: the backend's clear
color before the program ever sets one (the GL initial clear-color state is
all zeros); `src/main.cpp` itself never sets a clear color before its first
`glClear`. -/
def glDefaultClearColor : ℚ × ℚ × ℚ × ℚ := (0, 0, 0, 0)

/-- Effect of one GL command on the clear machinery: the accumulator holds
the clear colors used so far and the current clear-color state.  `glClear`
records the current clear color; `glClearColor` replaces it. -/
def clearStep (st : List (ℚ × ℚ × ℚ × ℚ) × (ℚ × ℚ × ℚ × ℚ)) (c : GLCmd) :
    List (ℚ × ℚ × ℚ × ℚ) × (ℚ × ℚ × ℚ × ℚ) :=
  match c with
  | GLCmd.clear => (st.1 ++ [st.2], st.2)
  | GLCmd.clearColor r g b a => (st.1, (r, g, b, a))
  | _ => st

/-- The clear colors a command stream uses, starting from clear-color state
`cc`, together with the final clear-color state. -/
def clearTrace (cmds : List GLCmd) (cc : ℚ × ℚ × ℚ × ℚ) :
    List (ℚ × ℚ × ℚ × ℚ) × (ℚ × ℚ × ℚ × ℚ) :=
  cmds.foldl clearStep ([], cc)

/-! ## Startup and the backend failure paths -/

/-- The backend calls `main` can make, in the order the source makes them. -/
inductive BackendCall
  | glfwInit
  | glfwCreateWindow
  | glfwMakeContextCurrent
  | glfwSetKeyCallback
  | enterLoop
  | glfwTerminate
deriving DecidableEq, Repr

/-- The startup path of `main`: `glfwInit`, on failure `return -1` at once;
then `glfwCreateWindow`, on failure `glfwTerminate` then `return -1`; on
success the remaining setup, the loop, `glfwTerminate`, `return 0`.  The
result is the process exit code and the trace of backend calls. -/
def mainStartup (initOk windowOk : Bool) : Int × List BackendCall :=
  if !initOk then (-1, [BackendCall.glfwInit])
  else if !windowOk then
    (-1, [BackendCall.glfwInit, BackendCall.glfwCreateWindow, BackendCall.glfwTerminate])
  else
    (0, [BackendCall.glfwInit, BackendCall.glfwCreateWindow,
         BackendCall.glfwMakeContextCurrent, BackendCall.glfwSetKeyCallback,
         BackendCall.enterLoop, BackendCall.glfwTerminate])

/-! ## Event classification -/

/-- A rotate-left or rotate-right key event with action press or repeat:
exactly the events `key_callback` lets touch `angleY`. -/
def isLR : Event → Bool
  | Event.key Key.left KeyAction.press => true
  | Event.key Key.left KeyAction.rep => true
  | Event.key Key.right KeyAction.press => true
  | Event.key Key.right KeyAction.rep => true
  | _ => false

/-- A rotate-right key event with action press or repeat. -/
def isRightPR : Event → Bool
  | Event.key Key.right KeyAction.press => true
  | Event.key Key.right KeyAction.rep => true
  | _ => false

/-- A rotate-left key event with action press or repeat. -/
def isLeftPR : Event → Bool
  | Event.key Key.left KeyAction.press => true
  | Event.key Key.left KeyAction.rep => true
  | _ => false

/-- Number of rotate-right presses and repeats in an event list. -/
def countRight (evs : List Event) : Nat := evs.countP isRightPR

/-- Number of rotate-left presses and repeats in an event list. -/
def countLeft (evs : List Event) : Nat := evs.countP isLeftPR

/-- An event that raises the window-should-close flag: Escape press or a
window close request. -/
def raisesClose : Event → Bool
  | Event.key Key.escape KeyAction.press => true
  | Event.closeRequest => true
  | _ => false

/-! ## Lemmas on event processing -/

lemma processEvent_isLR (e : Event) (h : isLR e = true) (s : AppState) :
    (processEvent e s).angleY =
      s.angleY + 5 * (((if isRightPR e then 1 else 0 : Nat) : ℚ)
        - ((if isLeftPR e then 1 else 0 : Nat) : ℚ)) ∧
    (processEvent e s).shouldClose = s.shouldClose ∧
    (processEvent e s).angleX = s.angleX := by
  cases e with
  | closeRequest => simp [isLR] at h
  | key k a =>
    cases k <;> cases a <;> simp [isLR] at h <;>
      refine ⟨?_, ?_, ?_⟩ <;>
        simp [processEvent, key_callback, isRightPR, isLeftPR] <;> ring

lemma pollEvents_isLR (evs : List Event) : ∀ s : AppState,
    (∀ e ∈ evs, isLR e = true) →
    (pollEvents evs s).angleY =
      s.angleY + 5 * ((countRight evs : ℚ) - (countLeft evs : ℚ)) ∧
    (pollEvents evs s).shouldClose = s.shouldClose ∧
    (pollEvents evs s).angleX = s.angleX := by
  induction evs with
  | nil =>
    intro s _
    simp [pollEvents, countRight, countLeft]
  | cons e t ih =>
    intro s h
    have he : isLR e = true := h e (List.mem_cons_self e t)
    have ht : ∀ x ∈ t, isLR x = true := fun x hx => h x (List.mem_cons_of_mem e hx)
    have hpe := processEvent_isLR e he s
    have hih := ih (processEvent e s) ht
    have hpoll : pollEvents (e :: t) s = pollEvents t (processEvent e s) := rfl
    rw [hpoll]
    refine ⟨?_, by rw [hih.2.1, hpe.2.1], by rw [hih.2.2, hpe.2.2]⟩
    rw [hih.1, hpe.1]
    simp only [countRight, countLeft, List.countP_cons]
    push_cast
    ring

lemma runLoop_yaw (polls : List (List Event)) : ∀ s : AppState,
    s.shouldClose = false →
    (∀ e ∈ polls.flatten, isLR e = true) →
    (runLoop polls s).angleY =
      s.angleY + 5 * ((countRight polls.flatten : ℚ) - (countLeft polls.flatten : ℚ))
        + (polls.length : ℚ) * (1/2) ∧
    (runLoop polls s).shouldClose = false ∧
    (runLoop polls s).angleX = s.angleX := by
  induction polls with
  | nil =>
    intro s h0 _
    simp [runLoop, countRight, countLeft, h0]
  | cons evs rest ih =>
    intro s h0 hLR
    have hevs : ∀ e ∈ evs, isLR e = true := by
      intro e he
      exact hLR e (by simp [List.mem_flatten]; exact Or.inl he)
    have hrest : ∀ e ∈ rest.flatten, isLR e = true := by
      intro e he
      exact hLR e (by simp [List.mem_flatten] at he ⊢; exact Or.inr he)
    have h1 := pollEvents_isLR evs (frameUpdate s) hevs
    have hs1 : (pollEvents evs (frameUpdate s)).shouldClose = false := by
      rw [h1.2.1]; exact h0
    have hrl : runLoop (evs :: rest) s = runLoop rest (pollEvents evs (frameUpdate s)) := by
      simp [runLoop, h0]
    have hih := ih (pollEvents evs (frameUpdate s)) hs1 hrest
    rw [hrl]
    refine ⟨?_, hih.2.1, by rw [hih.2.2, h1.2.2]; rfl⟩
    rw [hih.1, h1.1]
    show (frameUpdate s).angleY + _ + _ + _ = _
    simp only [frameUpdate, List.flatten, countRight, countLeft, List.countP_append,
      List.length_cons]
    push_cast
    ring

lemma runLoop_noInput (N : Nat) : ∀ s : AppState, s.shouldClose = false →
    (runLoop (List.replicate N []) s).angleY = s.angleY + (N : ℚ) * (1/2) ∧
    (runLoop (List.replicate N []) s).angleX = s.angleX ∧
    (runLoop (List.replicate N []) s).shouldClose = false := by
  induction N with
  | zero =>
    intro s h0
    simp [runLoop, h0]
  | succ k ih =>
    intro s h0
    have hstep : runLoop (List.replicate (k + 1) []) s =
        runLoop (List.replicate k []) (frameUpdate s) := by
      simp [List.replicate_succ, runLoop, h0, pollEvents]
    have hih := ih (frameUpdate s) (by rw [show (frameUpdate s).shouldClose = s.shouldClose from rfl]; exact h0)
    rw [hstep]
    refine ⟨?_, by rw [hih.2.1]; rfl, hih.2.2⟩
    rw [hih.1]
    show (frameUpdate s).angleY + _ = _
    simp only [frameUpdate]
    push_cast
    ring

lemma processEvent_close_mono (e : Event) (s : AppState) (h : s.shouldClose = true) :
    (processEvent e s).shouldClose = true := by
  cases e with
  | closeRequest => rfl
  | key k a => cases k <;> cases a <;> simp [processEvent, key_callback, h]

lemma pollEvents_close_mono (evs : List Event) : ∀ s : AppState, s.shouldClose = true →
    (pollEvents evs s).shouldClose = true := by
  induction evs with
  | nil => intro s h; exact h
  | cons e t ih =>
    intro s h
    exact ih (processEvent e s) (processEvent_close_mono e s h)

lemma pollEvents_close (evs : List Event) : ∀ s : AppState,
    Event.key Key.escape KeyAction.press ∈ evs →
    (pollEvents evs s).shouldClose = true := by
  induction evs with
  | nil => intro s h; simp at h
  | cons e t ih =>
    intro s h
    rcases List.mem_cons.mp h with h1 | h2
    · subst h1
      exact pollEvents_close_mono t (processEvent (Event.key Key.escape KeyAction.press) s)
        (by simp [processEvent, key_callback])
    · exact ih (processEvent e s) h2

lemma processEvent_noClose (e : Event) (h : raisesClose e = false) (s : AppState) :
    (processEvent e s).shouldClose = s.shouldClose := by
  cases e with
  | closeRequest => simp [raisesClose] at h
  | key k a =>
    cases k <;> cases a <;> simp [raisesClose] at h <;>
      simp [processEvent, key_callback]

lemma pollEvents_noClose (evs : List Event) : ∀ s : AppState,
    (∀ e ∈ evs, raisesClose e = false) →
    (pollEvents evs s).shouldClose = s.shouldClose := by
  induction evs with
  | nil => intro s _; rfl
  | cons e t ih =>
    intro s h
    have he := processEvent_noClose e (h e (List.mem_cons_self e t)) s
    have ht := ih (processEvent e s) (fun x hx => h x (List.mem_cons_of_mem e hx))
    exact ht.trans he

lemma runLoop_closed (polls : List (List Event)) (s : AppState) (h : s.shouldClose = true) :
    runLoop polls s = s := by
  cases polls with
  | nil => rfl
  | cons evs rest => simp [runLoop, h]

lemma rotateMat_eq_one (cosD sinD : ℚ → ℚ) (a x y z : ℚ)
    (hc : cosD a = 1) (hs : sinD a = 0) :
    rotateMat cosD sinD a x y z = 1 := by
  ext i j
  fin_cases i <;> fin_cases j <;>
    simp [rotateMat, hc, hs, Matrix.one_apply, Matrix.vecHead, Matrix.vecTail]

lemma clearTrace_frame (s : AppState) (acc : List (ℚ × ℚ × ℚ × ℚ)) (cc : ℚ × ℚ × ℚ × ℚ) :
    List.foldl clearStep (acc, cc) (frameCmds s) = (acc ++ [cc], fixedClearColor) := rfl

lemma loopClears (n : Nat) : ∀ (s : AppState) (acc : List (ℚ × ℚ × ℚ × ℚ))
    (cc : ℚ × ℚ × ℚ × ℚ),
    List.foldl clearStep (acc, cc) (loopCmds (n + 1) s) =
      (acc ++ cc :: List.replicate n fixedClearColor, fixedClearColor) := by
  induction n with
  | zero =>
    intro s acc cc
    show List.foldl clearStep (acc, cc) (frameCmds s ++ []) = _
    rw [List.append_nil, clearTrace_frame]
    simp
  | succ k ih =>
    intro s acc cc
    show List.foldl clearStep (acc, cc) (frameCmds s ++ loopCmds (k + 1) (frameUpdate s)) = _
    rw [List.foldl_append, clearTrace_frame, ih]
    simp [List.replicate_succ]

/-! ## Claims -/

/-- C1: for every sequence of rotate-left/rotate-right key events with action
press or repeat, delivered in per-frame poll batches, the net change to yaw
(`angleY`) is 5.0 × (right presses + right repeats − left presses − left
repeats) plus 0.5 × (number of frames rendered), and the result is unchanged
under any reordering of the events across the same number of polls (in
particular among events of the same poll). -/
theorem C1_yawNetChange (polls : List (List Event)) (s : AppState)
    (h0 : s.shouldClose = false)
    (hLR : ∀ e ∈ polls.flatten, isLR e = true) :
    (runLoop polls s).angleY =
      s.angleY + 5 * ((countRight polls.flatten : ℚ) - (countLeft polls.flatten : ℚ))
        + (polls.length : ℚ) * (1/2) ∧
    (∀ qs : List (List Event), qs.length = polls.length →
      qs.flatten.Perm polls.flatten →
      (runLoop qs s).angleY = (runLoop polls s).angleY) := by
  have hmain := runLoop_yaw polls s h0 hLR
  refine ⟨hmain.1, ?_⟩
  intro qs hlen hperm
  have hqLR : ∀ e ∈ qs.flatten, isLR e = true := fun e he => hLR e (hperm.subset he)
  have hq := runLoop_yaw qs s h0 hqLR
  rw [hq.1, hmain.1, hlen, countRight, countRight, countLeft, countLeft,
    hperm.countP_eq isRightPR, hperm.countP_eq isLeftPR]

/-- Witness for C1: two polls, the first delivering a right press and a left
repeat, the second a right repeat; net yaw 0 + 5·(2−1) + 2·0.5 = 6. -/
theorem C1_yawNetChange_witness :
    (runLoop [[Event.key Key.right KeyAction.press, Event.key Key.left KeyAction.rep],
      [Event.key Key.right KeyAction.rep]] initState).angleY = 6 := by
  have h := C1_yawNetChange
    [[Event.key Key.right KeyAction.press, Event.key Key.left KeyAction.rep],
      [Event.key Key.right KeyAction.rep]] initState rfl (by decide)
  rw [h.1]
  have hr : countRight
      [[Event.key Key.right KeyAction.press, Event.key Key.left KeyAction.rep],
        [Event.key Key.right KeyAction.rep]].flatten = 2 := by decide
  have hl : countLeft
      [[Event.key Key.right KeyAction.press, Event.key Key.left KeyAction.rep],
        [Event.key Key.right KeyAction.rep]].flatten = 1 := by decide
  rw [hr, hl]
  show (0 : ℚ) + 5 * ((2 : ℕ) - (1 : ℕ)) + (2 : ℕ) * (1/2) = 6
  norm_num

/-- C2: after exactly N frames of the loop with no input, yaw is exactly
0.5 × N (exact rational accumulation, no wrap-around or clamping anywhere in
the code) and pitch is still 0. -/
theorem C2_autoRotation (N : Nat) :
    (runLoop (List.replicate N []) initState).angleY = (1/2) * (N : ℚ) ∧
    (runLoop (List.replicate N []) initState).angleX = 0 := by
  have h := runLoop_noInput N initState rfl
  constructor
  · rw [h.1]
    show (0 : ℚ) + _ = _
    ring
  · rw [h.2.1]
    rfl

/-- C3: each frame the modelview commands are, in exactly this order,
load-identity, translate (0,0,−3), rotate `angleX` about X, rotate `angleY`
about Y; and for pitch = yaw = 0 the resulting view matrix (from any prior
matrix, since the identity reset discards it) is exactly the translation by
(0,0,−3), given only that the degree-cosine of 0 is 1 and the degree-sine of
0 is 0. -/
theorem C3_viewTransform (cosD sinD : ℚ → ℚ) (hc : cosD 0 = 1) (hs : sinD 0 = 0) :
    (∀ s : AppState, frameCmds s =
      [GLCmd.clear, GLCmd.clearColor (1/10) (1/10) (3/20) 1] ++
        viewCmds s ++ drawCube ++ [GLCmd.swapBuffers]) ∧
    (∀ s : AppState, viewCmds s =
      [GLCmd.loadIdentity, GLCmd.translatef 0 0 (-3),
        GLCmd.rotatef s.angleX 1 0 0, GLCmd.rotatef s.angleY 0 1 0]) ∧
    (∀ (s : AppState) (m : Mat4), s.angleX = 0 → s.angleY = 0 →
      evalView cosD sinD (frameCmds s) m = translateMat 0 0 (-3)) := by
  refine ⟨fun s => rfl, fun s => rfl, ?_⟩
  intro s m h1 h2
  show List.foldl (applyViewCmd cosD sinD) m (frameCmds s) = _
  simp only [frameCmds, viewCmds, drawCube, h1, h2, List.foldl_cons, List.foldl_append,
    List.foldl_nil, applyViewCmd]
  rw [rotateMat_eq_one cosD sinD 0 1 0 0 hc hs, rotateMat_eq_one cosD sinD 0 0 1 0 hc hs,
    one_mul, mul_one, mul_one]

/-- Witness for C3: with the constant functions 1 and 0 for the degree-cosine
and degree-sine the hypotheses hold, and the frame of the initial state leaves
the modelview matrix at the translation by (0,0,−3). -/
theorem C3_viewTransform_witness :
    ((fun _ : ℚ => (1 : ℚ)) 0 = 1) ∧
    evalView (fun _ : ℚ => (1 : ℚ)) (fun _ : ℚ => (0 : ℚ)) (frameCmds initState) 1 =
      translateMat 0 0 (-3) :=
  ⟨rfl, (C3_viewTransform (fun _ => 1) (fun _ => 0) rfl rfl).2.2 initState 1 rfl rfl⟩

/-- C4: `drawCube` emits exactly 6 faces, in order front, back, top, bottom,
right, left; each face has exactly 4 vertices, each is opened by exactly one
flat color (6 `glColor3f` calls in total inside one begin/end quad block), and
the 6 colors are pairwise distinct. -/
theorem C4_drawCubeFaces :
    cubeFaces.length = 6 ∧
    cubeFaces.map (fun f => f.verts.length) = [4, 4, 4, 4, 4, 4] ∧
    (cubeFaces.map Face.color).Nodup ∧
    cubeFaces.map faceSide =
      [some Side.front, some Side.back, some Side.top,
        some Side.bottom, some Side.right, some Side.left] ∧
    drawCube.countP (fun c =>
      match c with
      | GLCmd.color3f _ _ _ => true
      | _ => false) = 6 ∧
    drawCube.head? = some GLCmd.beginQuads ∧
    drawCube.getLast? = some GLCmd.endPrim := by
  refine ⟨?_, ?_, ?_, ?_, by decide, rfl, rfl⟩ <;>
    norm_num [cubeFaces, drawCube, facesAux, faceSide, List.all_cons, Prod.ext_iff]

/-- C5: a quit (Escape press) event in a poll batch raises the should-close
flag; a closed loop performs no further frame and never resumes; a frame whose
poll contains Escape press is the last frame the loop runs; and no event other
than Escape press or a window close request can make the loop exit. -/
theorem C5_quitTermination :
    (∀ (evs : List Event) (s : AppState),
      Event.key Key.escape KeyAction.press ∈ evs →
      (pollEvents evs s).shouldClose = true) ∧
    (∀ (polls : List (List Event)) (s : AppState), s.shouldClose = true →
      runLoop polls s = s) ∧
    (∀ (polls : List (List Event)) (evs : List Event) (s : AppState),
      s.shouldClose = false → Event.key Key.escape KeyAction.press ∈ evs →
      runLoop (evs :: polls) s = pollEvents evs (frameUpdate s)) ∧
    (∀ (evs : List Event) (s : AppState), s.shouldClose = false →
      (∀ e ∈ evs, raisesClose e = false) →
      (pollEvents evs s).shouldClose = false) := by
  refine ⟨fun evs s h => pollEvents_close evs s h,
    fun polls s h => runLoop_closed polls s h, ?_, ?_⟩
  · intro polls evs s h0 hmem
    have h1 : (pollEvents evs (frameUpdate s)).shouldClose = true :=
      pollEvents_close evs (frameUpdate s) hmem
    show (if s.shouldClose then s else runLoop polls (pollEvents evs (frameUpdate s))) = _
    rw [h0]
    simp only [Bool.false_eq_true, if_false]
    exact runLoop_closed polls _ h1
  · intro evs s h0 hnone
    rw [pollEvents_noClose evs s hnone]
    exact h0

/-- Witness for C5: concrete instances of its four parts. -/
theorem C5_quitTermination_witness :
    (pollEvents [Event.key Key.escape KeyAction.press] initState).shouldClose = true ∧
    runLoop [[]] ⟨1, 2, true⟩ = ⟨1, 2, true⟩ ∧
    runLoop [[Event.key Key.escape KeyAction.press]] initState =
      pollEvents [Event.key Key.escape KeyAction.press] (frameUpdate initState) ∧
    (pollEvents [Event.key Key.left KeyAction.press] initState).shouldClose = false :=
  ⟨C5_quitTermination.1 _ initState (by decide),
    C5_quitTermination.2.1 [[]] _ rfl,
    C5_quitTermination.2.2.1 [] _ initState rfl (by decide),
    C5_quitTermination.2.2.2 _ initState rfl (by decide)⟩

/-- C6: delivering Escape with action release leaves the whole state (angles
and should-close flag) unchanged, and Escape with any non-press action leaves
the should-close flag unchanged: the quit signal is raised only by a press. -/
theorem C6_quitReleaseNoOp :
    (∀ s : AppState, key_callback Key.escape KeyAction.release s = s) ∧
    (∀ (a : KeyAction) (s : AppState), a ≠ KeyAction.press →
      (key_callback Key.escape a s).shouldClose = s.shouldClose) := by
  constructor
  · intro s; rfl
  · intro a s ha
    cases a with
    | press => exact absurd rfl ha
    | rep => rfl
    | release => rfl

/-- Witness for C6: Escape release on a concrete state is the identity, and
Escape repeat does not raise the quit flag. -/
theorem C6_quitReleaseNoOp_witness :
    key_callback Key.escape KeyAction.release ⟨3, 4, false⟩ = ⟨3, 4, false⟩ ∧
    (key_callback Key.escape KeyAction.rep ⟨0, 0, false⟩).shouldClose = false :=
  ⟨C6_quitReleaseNoOp.1 ⟨3, 4, false⟩,
    C6_quitReleaseNoOp.2 KeyAction.rep ⟨0, 0, false⟩ (by decide)⟩

/-- C7: from pitch = yaw = 0, one rotate-up press followed by two frames with
no further input ends with pitch (`angleX`) = −5 and yaw (`angleY`) = 1. -/
theorem C7_upPressScenario :
    (runLoop [[], []] (key_callback Key.up KeyAction.press initState)).angleX = -5 ∧
    (runLoop [[], []] (key_callback Key.up KeyAction.press initState)).angleY = 1 := by
  have h : runLoop [[], []] (key_callback Key.up KeyAction.press initState) =
      ⟨0 - 5, 0 + 1/2 + 1/2, false⟩ := rfl
  rw [h]
  constructor <;> norm_num

/-- C8 counterexample: on the very first iteration the buffers are cleared
while the clear-color state is still the backend default (0,0,0,0), because
`glClearColor` is called only after `glClear`; the default differs from the
fixed clear color (0.1, 0.1, 0.15, 1), so the first frame is not cleared with
the fixed background. -/
theorem C8_firstFrameDefaultClear :
    (clearTrace (loopCmds 1 initState) glDefaultClearColor).1 = [glDefaultClearColor] ∧
    glDefaultClearColor ≠ fixedClearColor := by
  refine ⟨rfl, fun h => ?_⟩
  have h1 : (0 : ℚ) = 1/10 := congrArg Prod.fst h
  norm_num at h1

/-- C8 amended: every iteration of the render loop clears the color and depth
buffers before anything is drawn that frame (`glClear` is the first command of
the frame); the clear uses the clear color in effect when the frame starts,
which is the backend's initial clear color on the first iteration and the
fixed clear color (0.1, 0.1, 0.15, 1) on every later iteration, since the
program sets the fixed clear color only after each clear. -/
theorem C8_clearBeforeDraw :
    (∀ s : AppState, (frameCmds s).head? = some GLCmd.clear) ∧
    (∀ n : Nat, (clearTrace (loopCmds (n + 1) initState) glDefaultClearColor).1 =
      glDefaultClearColor :: List.replicate n fixedClearColor) := by
  refine ⟨fun s => rfl, fun n => ?_⟩
  show (List.foldl clearStep ([], glDefaultClearColor) (loopCmds (n + 1) initState)).1 = _
  rw [loopClears n initState [] glDefaultClearColor]
  simp

/-- C9: if `glfwInit` fails the process exits at once with the non-zero
status −1 and makes no further backend call; if it succeeds and
`glfwCreateWindow` fails, the process calls `glfwTerminate` and exits with
the non-zero status −1. -/
theorem C9_startupFailures :
    (∀ b : Bool, (mainStartup false b).1 ≠ 0 ∧
      (mainStartup false b).2 = [BackendCall.glfwInit]) ∧
    (mainStartup true false).1 ≠ 0 ∧
    (mainStartup true false).2 =
      [BackendCall.glfwInit, BackendCall.glfwCreateWindow, BackendCall.glfwTerminate] := by
  refine ⟨fun b => ?_, by decide, rfl⟩
  cases b <;> exact ⟨by decide, rfl⟩

/-- C10: `drawCube` emits exactly 24 vertices, every coordinate of every
vertex is −1/2 or +1/2, and each of the 6 faces has all four vertices sharing
the same value in the coordinate perpendicular to it (each face is planar and
axis-aligned). -/
theorem C10_cubeGeometry :
    cubeVerts.length = 24 ∧
    cubeVerts.all vertOK = true ∧
    cubeFaces.all (fun f => (faceSide f).isSome) = true := by
  refine ⟨rfl, ?_, ?_⟩ <;>
    norm_num [cubeVerts, cubeFaces, drawCube, facesAux, faceSide, vertOK, coordOK,
      List.all_cons]

end UntoldCrime
